import Mathlib

/-!
A shallow embedding of `src/bin/BedrockAgentBlueprintsConstruct.ts`
(the `BedrockAgentBlueprintsConstruct` CDK construct) and proofs about it.

Modelling conventions:
* JavaScript truthiness on optional strings (`if (x)` where `x : string |
  undefined`) is `strTruthy`: `undefined` and `""` are falsy.
* JavaScript truthiness on optional objects (`Buffer`, function-schema
  objects, lambda references) is `Option.isSome`: any object, even an
  empty buffer, is truthy.
* JavaScript template interpolation of a possibly-`undefined` string
  (as in `` `arn:aws:bedrock:${region}::...` ``) is `jsStr`: `undefined`
  renders as the literal text "undefined" and does not raise.
* CDK deploy-time tokens (`bucketName`, `bucketArn`, `attrAgentArn`,
  `Fn.select(0, objectKeys)`) are opaque non-empty marker strings.
* Throwing (`throw new Error(...)`) is `Except.error` with the exact
  message; construct state mutation is explicit state passing on
  `AssemblyState`.
* Unique-name generation (`uuidv4().slice(0, 12)` suffixes on the role
  name, permission names, bucket id) is out of scope per the spec and is
  dropped: it never influences control flow.
-/

namespace BedrockBlueprints

/-- JS template interpolation of `string | undefined`: `undefined` prints
as the text "undefined" instead of failing. -/
def jsStr : Option String → String
  | some s => s
  | none => "undefined"

/-- JS truthiness of a `string | undefined` value: `undefined` and the
empty string are falsy. -/
def strTruthy : Option String → Bool
  | some s => s != ""
  | none => false

/-- Modelled from the spec: the *structured function schema* variant of a
schema specification ("a typed parameter list, no upload needed"). The
construct only carries it through, so its content is an opaque payload. -/
structure FunctionSchema where
  payload : List String
  deriving DecidableEq

/-- Modelled from the spec: a `SchemaDefinition` as used by the construct —
three optional variants: inline OpenAPI document (string), schema file
(byte buffer), structured function schema. -/
structure SchemaDefinition where
  inlineAPISchema : Option String
  apiSchemaFile : Option (List Nat)
  functionSchema : Option FunctionSchema
  deriving DecidableEq

/-- Modelled from the spec: one caller-supplied action group
(`AgentActionGroup`). `actionExecutor` stands for the opaque result of
`getActionExecutor()`; `lambdaFunc` is the optional backing-function
reference used by the invocation-grant pass. -/
structure AgentActionGroup where
  actionGroupName : String
  description : Option String
  actionGroupState : Option String
  actionExecutor : Option String
  schemaDefinition : SchemaDefinition
  lambdaFunc : Option String
  deriving DecidableEq

/-- `bedrock.CfnAgent.S3IdentifierProperty`: both fields optional (the
`uploadSchemaToS3` guard path returns an empty object). -/
structure S3Identifier where
  s3BucketName : Option String
  s3ObjectKey : Option String
  deriving DecidableEq

/-- The schema part of an assembled `AgentActionGroupProperty`: exactly one
of `apiSchema.payload`, `apiSchema.s3`, or `functionSchema` (the three
return shapes of `getApiSchema`). -/
inductive ApiSchemaResult where
  | apiSchemaPayload (payload : String)
  | apiSchemaS3 (s3 : S3Identifier)
  | functionSchemaResult (fs : FunctionSchema)
  deriving DecidableEq

/-- One assembled `bedrock.CfnAgent.AgentActionGroupProperty` fragment. -/
structure AgentActionGroupProperty where
  actionGroupName : String
  actionGroupExecutor : Option String
  description : Option String
  actionGroupState : Option String
  schemaProps : ApiSchemaResult
  deriving DecidableEq

/-- The subset of `bedrock.CfnAgentProps` the construct reads or writes:
`agentName`, `foundationModel`, `agentResourceRoleArn`, `actionGroups`. -/
structure CfnAgentProps where
  agentName : String
  foundationModel : Option String
  agentResourceRoleArn : Option String
  actionGroups : Option (List AgentActionGroupProperty)
  deriving DecidableEq

/-- The process environment read by the construct:
`process.env.CDK_DEFAULT_REGION` and `process.env.CDK_DEFAULT_ACCOUNT`. -/
structure Env where
  cdkDefaultRegion : Option String
  cdkDefaultAccount : Option String
  deriving DecidableEq

/-- One `StringEquals` condition entry of an IAM policy or trust policy.
The value is `Option String` because the source stores
`process.env.CDK_DEFAULT_ACCOUNT!` there unchecked, which may be
`undefined` at runtime. -/
structure Condition where
  key : String
  value : Option String
  deriving DecidableEq

/-- An `iam.PolicyStatement` as built by the construct. -/
structure PolicyStatement where
  sid : String
  effectAllow : Bool
  actions : List String
  resources : List String
  conditions : List Condition
  deriving DecidableEq

/-- The `iam.Role` built by `setupIAMRole`, with the statements later
appended by `addToPolicy`. `roleArn` is the CDK token for the role ARN. -/
structure Role where
  assumedByService : String
  assumeConditions : List Condition
  description : String
  policyStatements : List PolicyStatement
  roleArn : String
  deriving DecidableEq

/-- The `s3.Bucket` configuration fixed by `setupS3Bucket`. -/
structure Bucket where
  encryption : String
  blockPublicAccess : String
  enforceSSL : Bool
  deriving DecidableEq

/-- One `BucketDeployment` produced by `deployAssetsToBucket`: the staged
files and the destination key prefix, plus the deploy-time tokens the
callers read back. -/
structure Deployment where
  files : List (String × List Nat)
  destinationKeyPfx : String
  deployedBucketName : String
  deployedBucketArn : String
  objectKeysHead : String
  deriving DecidableEq

/-- The `bedrock.CfnAgent` resource: the final props it was created from
and the deploy-time token `attrAgentArn`. -/
structure CfnAgent where
  props : CfnAgentProps
  attrAgentArn : String
  deriving DecidableEq

/-- One `lambda.addPermission` grant issued by
`addResourcePolicyForActions`. -/
structure LambdaPermission where
  functionRef : String
  action : String
  principal : String
  sourceArn : String
  deriving DecidableEq

/-- The construct's mutable instance state during the constructor run:
`this.agentDefinition`, `this.agentServiceRole`,
`this.assetManagementBucket`, plus ledgers for artifact deployments and
temporary staging directories (for the cleanup property), and a counter
of `setupIAMRole` invocations. -/
structure AssemblyState where
  agentDefinition : CfnAgentProps
  agentServiceRole : Option Role
  assetBucket : Option Bucket
  deployments : List Deployment
  tempDirsCreated : Nat
  tempDirsRemoved : Nat
  roleSynthCount : Nat
  deriving DecidableEq

/-- CDK token for `this.assetManagementBucket.bucketName`. -/
def assetBucketNameToken : String := "<token:AssetBucket.bucketName>"

/-- CDK token for `this.assetManagementBucket.bucketArn`. -/
def assetBucketArnToken : String := "<token:AssetBucket.bucketArn>"

/-- CDK token for `Fn.select(0, deploymentInfo.objectKeys)` of the
deployment named `AssetDeployment-<prefix>`. -/
def objectKeysHeadToken (pfx : String) : String :=
  "<token:AssetDeployment-" ++ pfx ++ ".objectKeys[0]>"

/-- CDK token for `bedrockServiceRole.roleArn`. -/
def serviceRoleArnToken : String := "<token:BedrockServiceRole.roleArn>"

/-- CDK token for `this.agent.attrAgentArn`. -/
def agentArnToken : String := "<token:Agent.attrAgentArn>"

/-- `checkActionsRequireArtifacts`: true iff any action group's
`schemaDefinition.apiSchemaFile` is set (JS truthiness of a Buffer is
presence); `undefined` action groups give `false` via `?? false`. -/
def checkActionsRequireArtifacts (actionGroups : Option (List AgentActionGroup)) : Bool :=
  match actionGroups with
  | none => false
  | some ags => ags.any fun action => action.schemaDefinition.apiSchemaFile.isSome

/-- `setupS3Bucket`: S3-managed encryption, all public access blocked,
SSL enforced. -/
def setupS3Bucket : Bucket :=
  { encryption := "S3_MANAGED"
    blockPublicAccess := "BLOCK_ALL"
    enforceSSL := true }

/-- `setupIAMRole`: builds the Bedrock service role. Reads region and
account from the environment with TypeScript non-null assertions, which
are erased at runtime: a missing variable flows through (rendered
"undefined" inside the template-literal ARN, kept `undefined` in the
trust condition) and never raises. -/
def setupIAMRole (env : Env) (agentDefinition : CfnAgentProps) : Role :=
  let region := jsStr env.cdkDefaultRegion
  let modelUsed := jsStr agentDefinition.foundationModel
  { assumedByService := "bedrock.amazonaws.com"
    assumeConditions := [{ key := "aws:SourceAccount", value := env.cdkDefaultAccount }]
    description := "Service role for Amazon Bedrock"
    policyStatements := [
      { sid := "AllowModelInvocationForOrchestration"
        effectAllow := true
        actions := ["bedrock:InvokeModel"]
        resources := ["arn:aws:bedrock:" ++ region ++ "::foundation-model/" ++ modelUsed]
        conditions := [] }]
    roleArn := serviceRoleArnToken }

/-- `createBedrockAgent`: if `this.agentDefinition.agentResourceRoleArn`
is falsy, synthesize the service role (and record the new role ARN in the
agent definition, as `setupIAMRole` does); then create the `CfnAgent`
from the current agent definition. -/
def createBedrockAgent (env : Env) (st : AssemblyState) : AssemblyState × CfnAgent :=
  let st1 :=
    if strTruthy st.agentDefinition.agentResourceRoleArn then st
    else
      let role := setupIAMRole env st.agentDefinition
      { st with
        agentServiceRole := some role
        agentDefinition := { st.agentDefinition with agentResourceRoleArn := some role.roleArn }
        roleSynthCount := st.roleSynthCount + 1 }
  (st1, { props := st1.agentDefinition, attrAgentArn := agentArnToken })

/-- `addSchemaAccessForAgents`: no-op when `this.agentServiceRole` is not
set; otherwise appends the `s3:GetObject` statement (scoped by an
`aws:ResourceAccount` condition) to the role's policy. -/
def addSchemaAccessForAgents (env : Env) (st : AssemblyState) (s3ArtifactArn : String) :
    AssemblyState :=
  match st.agentServiceRole with
  | none => st
  | some role =>
    let stmt : PolicyStatement :=
      { sid := "AllowAccessToActionGroupAPISchemas"
        effectAllow := true
        actions := ["s3:GetObject"]
        resources := [s3ArtifactArn]
        conditions := [{ key := "aws:ResourceAccount", value := env.cdkDefaultAccount }] }
    { st with
      agentServiceRole := some { role with policyStatements := role.policyStatements ++ [stmt] } }

/-- `deployAssetsToBucket`: creates a temporary staging directory
(`mkdtempSync`), writes the files, creates the `BucketDeployment`. The
`finally` block's cleanup is a commented-out TODO in the source, so the
temporary directory is never removed. -/
def deployAssetsToBucket (st : AssemblyState) (assetFiles : List (String × List Nat))
    (pfx : String) : Deployment × AssemblyState :=
  let dep : Deployment :=
    { files := assetFiles
      destinationKeyPfx := pfx
      deployedBucketName := assetBucketNameToken
      deployedBucketArn := assetBucketArnToken
      objectKeysHead := objectKeysHeadToken pfx }
  (dep,
    { st with
      deployments := st.deployments ++ [dep]
      tempDirsCreated := st.tempDirsCreated + 1 })

/-- `uploadSchemaToS3`: guard-returns an empty `S3IdentifierProperty` when
the buffer is absent; otherwise stages the single file
`OpenAPISchema_<actionGroupName>.json`, deploys it under the
action-group-name prefix, attempts the schema-access grant, and returns
the bucket-name and first-object-key tokens. -/
def uploadSchemaToS3 (env : Env) (st : AssemblyState) (schemaFile : Option (List Nat))
    (actionGroupName : String) : S3Identifier × AssemblyState :=
  match schemaFile with
  | none => ({ s3BucketName := none, s3ObjectKey := none }, st)
  | some bytes =>
    let fileBufferMap := [("OpenAPISchema_" ++ actionGroupName ++ ".json", bytes)]
    let deployed := deployAssetsToBucket st fileBufferMap actionGroupName
    let st2 := addSchemaAccessForAgents env deployed.2
      (deployed.1.deployedBucketArn ++ "/" ++ actionGroupName)
    ({ s3BucketName := some deployed.1.deployedBucketName
       s3ObjectKey := some deployed.1.objectKeysHead }, st2)

/-- `getApiSchema`: inline schema wins, then file schema (upload), then
function schema; with none of the three, throws
"OpenAPI schema or functionDefinition schema required for creating action
group". -/
def getApiSchema (env : Env) (st : AssemblyState) (schemaDefinition : SchemaDefinition)
    (actionGroupName : String) : Except String (ApiSchemaResult × AssemblyState) :=
  if strTruthy schemaDefinition.inlineAPISchema then
    .ok (.apiSchemaPayload (schemaDefinition.inlineAPISchema.getD ""), st)
  else if schemaDefinition.apiSchemaFile.isSome then
    let uploaded := uploadSchemaToS3 env st schemaDefinition.apiSchemaFile actionGroupName
    .ok (.apiSchemaS3 uploaded.1, uploaded.2)
  else
    match schemaDefinition.functionSchema with
    | some fs => .ok (.functionSchemaResult fs, st)
    | none =>
      .error "OpenAPI schema or functionDefinition schema required for creating action group"

/-- The `actionGroups.map(...)` body of `associateActionGroupInfo`:
builds one `AgentActionGroupProperty` per action group, left to right,
threading the construct state through `getApiSchema`. -/
def mapActionGroupProps (env : Env) (st : AssemblyState) :
    List AgentActionGroup → Except String (List AgentActionGroupProperty × AssemblyState)
  | [] => .ok ([], st)
  | action :: rest =>
    match getApiSchema env st action.schemaDefinition action.actionGroupName with
    | .error e => .error e
    | .ok (schemaProps, st1) =>
      match mapActionGroupProps env st1 rest with
      | .error e => .error e
      | .ok (frags, st2) =>
        .ok ({ actionGroupName := action.actionGroupName
               actionGroupExecutor := action.actionExecutor
               description := action.description
               actionGroupState := action.actionGroupState
               schemaProps := schemaProps } :: frags, st2)

/-- `associateActionGroupInfo`: early return on an absent list; otherwise
map every action group to a fragment and append the fragments to the
pre-existing `actionGroups` of the agent definition (`undefined`
initialized to the empty array). -/
def associateActionGroupInfo (env : Env) (st : AssemblyState)
    (actionGroups : Option (List AgentActionGroup)) : Except String AssemblyState :=
  match actionGroups with
  | none => .ok st
  | some ags =>
    match mapActionGroupProps env st ags with
    | .error e => .error e
    | .ok (agentActionGroups, st1) =>
      let existingActions := st1.agentDefinition.actionGroups.getD []
      .ok { st1 with
            agentDefinition :=
              { st1.agentDefinition with
                actionGroups := some (existingActions ++ agentActionGroups) } }

/-- The permission object passed to `lambdaFunc.addPermission`: invoke
permission for the Bedrock service principal, scoped to the agent's ARN. -/
def mkInvokePermission (agent : CfnAgent) (f : String) : LambdaPermission :=
  { functionRef := f
    action := "lambda:InvokeFunction"
    principal := "bedrock.amazonaws.com"
    sourceArn := agent.attrAgentArn }

/-- `addResourcePolicyForActions`: early return on an absent list;
otherwise one `addPermission` per action group whose `lambdaFunc` is set
(the optional-chaining call skips the others), with the Bedrock service
principal and the agent's ARN as source ARN. -/
def addResourcePolicyForActions (agent : CfnAgent)
    (actionGroups : Option (List AgentActionGroup)) : List LambdaPermission :=
  match actionGroups with
  | none => []
  | some ags =>
    ags.filterMap fun action => action.lambdaFunc.map fun f => mkInvokePermission agent f

/-- The constructor props: the agent definition template and the optional
ordered action-group list. -/
structure ConstructProps where
  agentDefinition : CfnAgentProps
  actionGroups : Option (List AgentActionGroup)
  deriving DecidableEq

/-- Everything the finished constructor run exposes: the final instance
state, the created `CfnAgent`, and the issued invocation permissions. -/
structure ConstructResult where
  state : AssemblyState
  agent : CfnAgent
  lambdaPermissions : List LambdaPermission
  deriving DecidableEq

/-- The construct instance state as it stands at the top of the
constructor body: `this.agentDefinition = props.agentDefinition`, no
role, no bucket, nothing deployed. -/
def initialAssemblyState (props : ConstructProps) : AssemblyState :=
  { agentDefinition := props.agentDefinition
    agentServiceRole := none
    assetBucket := none
    deployments := []
    tempDirsCreated := 0
    tempDirsRemoved := 0
    roleSynthCount := 0 }

/-- The constructor's first step: set up the asset-management bucket iff
`checkActionsRequireArtifacts` holds of the supplied action groups. -/
def afterBucketSetup (props : ConstructProps) : AssemblyState :=
  if checkActionsRequireArtifacts props.actionGroups then
    { initialAssemblyState props with assetBucket := some setupS3Bucket }
  else initialAssemblyState props

/-- The constructor of `BedrockAgentBlueprintsConstruct`, in source order:
conditionally set up the asset bucket, associate the action groups
(resolving and uploading schemas), create the agent (synthesizing the
role when none was supplied), then add the invocation permissions. -/
def buildConstruct (env : Env) (props : ConstructProps) : Except String ConstructResult :=
  match associateActionGroupInfo env (afterBucketSetup props) props.actionGroups with
  | .error e => .error e
  | .ok st2 =>
    let created := createBedrockAgent env st2
    .ok { state := created.1
          agent := created.2
          lambdaPermissions := addResourcePolicyForActions created.2 props.actionGroups }

/-! ## Statement-side predicates and concrete inputs -/

/-- The number of populated variants of a schema definition, counted the
way the source's truthiness checks see them: an inline schema counts only
when it is a non-empty string, a file buffer and a function-schema object
count when present. -/
def populatedVariantCount (sd : SchemaDefinition) : Nat :=
  (if strTruthy sd.inlineAPISchema then 1 else 0) +
  (if sd.apiSchemaFile.isSome then 1 else 0) +
  (if sd.functionSchema.isSome then 1 else 0)

/-- What `getApiSchema` returns for a given schema definition, as a
relation on the result: inline payload first, then the S3 reference for
the uploaded file, then the function schema. -/
def schemaMatches (sd : SchemaDefinition) (actionGroupName : String) (r : ApiSchemaResult) :
    Prop :=
  if strTruthy sd.inlineAPISchema then
    r = .apiSchemaPayload (sd.inlineAPISchema.getD "")
  else if sd.apiSchemaFile.isSome then
    r = .apiSchemaS3
      { s3BucketName := some assetBucketNameToken
        s3ObjectKey := some (objectKeysHeadToken actionGroupName) }
  else
    ∃ fs, sd.functionSchema = some fs ∧ r = .functionSchemaResult fs

/-- A fragment carries the action group's name, executor reference,
description, activation state, and its resolved schema. -/
def fragMatches (action : AgentActionGroup) (frag : AgentActionGroupProperty) : Prop :=
  frag.actionGroupName = action.actionGroupName ∧
  frag.actionGroupExecutor = action.actionExecutor ∧
  frag.description = action.description ∧
  frag.actionGroupState = action.actionGroupState ∧
  schemaMatches action.schemaDefinition action.actionGroupName frag.schemaProps

/-- An empty agent definition, used only inside `fallbackResult`. -/
def emptyAgentProps : CfnAgentProps :=
  { agentName := "", foundationModel := none, agentResourceRoleArn := none, actionGroups := none }

/-- A throwaway result used as fallback when reading an `Except` that is
known to be `ok`. -/
def fallbackResult : ConstructResult :=
  { state := initialAssemblyState { agentDefinition := emptyAgentProps, actionGroups := none }
    agent := { props := emptyAgentProps, attrAgentArn := "" }
    lambdaPermissions := [] }

/-- Reads the payload of a successful constructor run. -/
def okResult (e : Except String ConstructResult) : ConstructResult :=
  match e with
  | .ok r => r
  | .error _ => fallbackResult

/-- A fully specified environment. -/
def envW : Env :=
  { cdkDefaultRegion := some "us-east-1", cdkDefaultAccount := some "123456789012" }

/-- An environment in which neither region nor account can be determined. -/
def envNone : Env := { cdkDefaultRegion := none, cdkDefaultAccount := none }

/-- An agent definition template with no caller-supplied role. -/
def defnW : CfnAgentProps :=
  { agentName := "MyAgent"
    foundationModel := some "anthropic.claude-v2"
    agentResourceRoleArn := none
    actionGroups := none }

/-- A schema definition with only the file variant populated. -/
def sdFile : SchemaDefinition :=
  { inlineAPISchema := none, apiSchemaFile := some [111, 112], functionSchema := none }

/-- A schema definition with no variant populated. -/
def sdEmpty : SchemaDefinition :=
  { inlineAPISchema := none, apiSchemaFile := none, functionSchema := none }

/-- A schema definition with only the structured function schema. -/
def sdFn : SchemaDefinition :=
  { inlineAPISchema := none, apiSchemaFile := none, functionSchema := some { payload := ["p"] } }

/-- A schema definition with both the inline and the file variant
populated. -/
def sdBoth : SchemaDefinition :=
  { inlineAPISchema := some "openapi-doc", apiSchemaFile := some [1], functionSchema := none }

/-- An action group with a file-based schema and no backing function. -/
def agFile : AgentActionGroup :=
  { actionGroupName := "FileAction"
    description := some "reads files"
    actionGroupState := some "ENABLED"
    actionExecutor := some "executor-file"
    schemaDefinition := sdFile
    lambdaFunc := none }

/-- An action group with both inline and file schema variants. -/
def agBoth : AgentActionGroup :=
  { actionGroupName := "BothAction"
    description := some "both variants"
    actionGroupState := some "ENABLED"
    actionExecutor := some "executor-both"
    schemaDefinition := sdBoth
    lambdaFunc := none }

/-- An action group with a function schema and a backing function. -/
def agFn : AgentActionGroup :=
  { actionGroupName := "FnAction"
    description := none
    actionGroupState := some "DISABLED"
    actionExecutor := some "executor-fn"
    schemaDefinition := sdFn
    lambdaFunc := some "arn:aws:lambda:us-east-1:123456789012:function:fn" }

/-- Props: one file-schema action group, no caller role. -/
def propsFile : ConstructProps := { agentDefinition := defnW, actionGroups := some [agFile] }

/-- Props: one inline-and-file action group, no caller role. -/
def propsBoth : ConstructProps := { agentDefinition := defnW, actionGroups := some [agBoth] }

/-- Props: a lambda-backed function-schema group and a file group without
a backing function. -/
def propsMixed : ConstructProps :=
  { agentDefinition := defnW, actionGroups := some [agFn, agFile] }

/-- Props with no action-group list at all. -/
def propsNoActions : ConstructProps := { agentDefinition := defnW, actionGroups := none }

/-- The run of the construct on `propsFile` in the full environment. -/
def resFile : ConstructResult := okResult (buildConstruct envW propsFile)

/-- The run of the construct on `propsBoth` in the full environment. -/
def resBoth : ConstructResult := okResult (buildConstruct envW propsBoth)

/-- The run of the construct on `propsMixed` in the full environment. -/
def resMixed : ConstructResult := okResult (buildConstruct envW propsMixed)

/-- The run of the construct on `propsFile` with region and account both
missing from the environment. -/
def resNoEnv : ConstructResult := okResult (buildConstruct envNone propsFile)

/-! ## Helper lemmas about the pipeline stages -/

/-- Fields of the state right after the bucket-setup step, and the fact
that a bucket exists there exactly when `checkActionsRequireArtifacts`
holds. -/
theorem afterBucketSetup_fields (props : ConstructProps) :
    (afterBucketSetup props).agentDefinition = props.agentDefinition ∧
    (afterBucketSetup props).agentServiceRole = none ∧
    (afterBucketSetup props).deployments = [] ∧
    (afterBucketSetup props).tempDirsCreated = 0 ∧
    (afterBucketSetup props).tempDirsRemoved = 0 ∧
    (afterBucketSetup props).roleSynthCount = 0 ∧
    (afterBucketSetup props).assetBucket.isSome = checkActionsRequireArtifacts props.actionGroups := by
  unfold afterBucketSetup initialAssemblyState
  split
  case isTrue h => simp [h]
  case isFalse h => simp [Bool.not_eq_true] at h; simp [h]

/-- `uploadSchemaToS3` touches only the deployment and temp-dir ledgers
(and, when a role exists, the role's policy): the agent definition, the
bucket, the synthesis counter are untouched, and an absent role stays
absent. -/
theorem uploadSchemaToS3_preserves (env : Env) (st : AssemblyState) (sf : Option (List Nat))
    (name : String) :
    (uploadSchemaToS3 env st sf name).2.agentDefinition = st.agentDefinition ∧
    (uploadSchemaToS3 env st sf name).2.assetBucket = st.assetBucket ∧
    (uploadSchemaToS3 env st sf name).2.roleSynthCount = st.roleSynthCount ∧
    (st.agentServiceRole = none → (uploadSchemaToS3 env st sf name).2.agentServiceRole = none) := by
  cases sf with
  | none => simp [uploadSchemaToS3]
  | some bytes =>
    cases hr : st.agentServiceRole <;>
      simp [uploadSchemaToS3, deployAssetsToBucket, addSchemaAccessForAgents, hr]

/-- `getApiSchema`, when it succeeds, preserves the agent definition, the
bucket, the synthesis counter, and the absence of a role. -/
theorem getApiSchema_ok_preserves (env : Env) (st : AssemblyState) (sd : SchemaDefinition)
    (name : String) (r : ApiSchemaResult) (st' : AssemblyState)
    (h : getApiSchema env st sd name = .ok (r, st')) :
    st'.agentDefinition = st.agentDefinition ∧
    st'.assetBucket = st.assetBucket ∧
    st'.roleSynthCount = st.roleSynthCount ∧
    (st.agentServiceRole = none → st'.agentServiceRole = none) := by
  unfold getApiSchema at h
  split at h
  · simp only [Except.ok.injEq, Prod.mk.injEq] at h
    rw [← h.2]
    exact ⟨rfl, rfl, rfl, fun hr => hr⟩
  · split at h
    · simp only [Except.ok.injEq, Prod.mk.injEq] at h
      rw [← h.2]
      exact uploadSchemaToS3_preserves env st sd.apiSchemaFile name
    · split at h
      · simp only [Except.ok.injEq, Prod.mk.injEq] at h
        rw [← h.2]
        exact ⟨rfl, rfl, rfl, fun hr => hr⟩
      · exact absurd h (by simp)

/-- The fragment-mapping pass, when it succeeds, preserves the agent
definition, the bucket, the synthesis counter, and the absence of a
role. -/
theorem mapActionGroupProps_ok_preserves (env : Env) :
    ∀ (ags : List AgentActionGroup) (st : AssemblyState)
      (frags : List AgentActionGroupProperty) (st' : AssemblyState),
      mapActionGroupProps env st ags = .ok (frags, st') →
      st'.agentDefinition = st.agentDefinition ∧
      st'.assetBucket = st.assetBucket ∧
      st'.roleSynthCount = st.roleSynthCount ∧
      (st.agentServiceRole = none → st'.agentServiceRole = none)
  | [], st, frags, st', h => by
    simp only [mapActionGroupProps, Except.ok.injEq, Prod.mk.injEq] at h
    rw [← h.2]
    exact ⟨rfl, rfl, rfl, fun hr => hr⟩
  | action :: rest, st, frags, st', h => by
    unfold mapActionGroupProps at h
    split at h
    · exact absurd h (by simp)
    · rename_i schemaProps st1 heq1
      split at h
      · exact absurd h (by simp)
      · rename_i frags2 st2 heq2
        simp only [Except.ok.injEq, Prod.mk.injEq] at h
        have h1 := getApiSchema_ok_preserves env st action.schemaDefinition
          action.actionGroupName schemaProps st1 heq1
        have h2 := mapActionGroupProps_ok_preserves env rest st1 frags2 st2 heq2
        rw [← h.2]
        exact ⟨h2.1.trans h1.1, h2.2.1.trans h1.2.1, h2.2.2.1.trans h1.2.2.1,
          fun hr => h2.2.2.2 (h1.2.2.2 hr)⟩

/-- `associateActionGroupInfo`, when it succeeds, preserves the bucket,
the synthesis counter, the absence of a role, and every agent-definition
field except `actionGroups`. -/
theorem associateActionGroupInfo_ok_preserves (env : Env) (st : AssemblyState)
    (actionGroups : Option (List AgentActionGroup)) (st' : AssemblyState)
    (h : associateActionGroupInfo env st actionGroups = .ok st') :
    st'.assetBucket = st.assetBucket ∧
    st'.roleSynthCount = st.roleSynthCount ∧
    st'.agentDefinition.agentName = st.agentDefinition.agentName ∧
    st'.agentDefinition.foundationModel = st.agentDefinition.foundationModel ∧
    st'.agentDefinition.agentResourceRoleArn = st.agentDefinition.agentResourceRoleArn ∧
    (st.agentServiceRole = none → st'.agentServiceRole = none) := by
  unfold associateActionGroupInfo at h
  split at h
  · simp only [Except.ok.injEq] at h
    rw [← h]
    exact ⟨rfl, rfl, rfl, rfl, rfl, fun hr => hr⟩
  · rename_i ags
    split at h
    · exact absurd h (by simp)
    · rename_i frags st1 heq
      have h1 := mapActionGroupProps_ok_preserves env ags st frags st1 heq
      simp only [Except.ok.injEq] at h
      rw [← h]
      refine ⟨h1.2.1, h1.2.2.1, ?_, ?_, ?_, h1.2.2.2⟩ <;> simp [h1.1]

/-- When a role ARN is already supplied (truthy), `createBedrockAgent`
leaves the construct state untouched. -/
theorem createBedrockAgent_of_truthy (env : Env) (st : AssemblyState)
    (h : strTruthy st.agentDefinition.agentResourceRoleArn = true) :
    (createBedrockAgent env st).1 = st := by
  unfold createBedrockAgent
  simp [h]

/-- When the role ARN is falsy, `createBedrockAgent` synthesizes the
role, stores its ARN in the agent definition, and bumps the synthesis
counter. -/
theorem createBedrockAgent_of_falsy (env : Env) (st : AssemblyState)
    (h : strTruthy st.agentDefinition.agentResourceRoleArn = false) :
    (createBedrockAgent env st).1 =
      { st with
        agentServiceRole := some (setupIAMRole env st.agentDefinition)
        agentDefinition :=
          { st.agentDefinition with agentResourceRoleArn := some serviceRoleArnToken }
        roleSynthCount := st.roleSynthCount + 1 } := by
  unfold createBedrockAgent
  simp [h, setupIAMRole]

/-- The created `CfnAgent` carries the (possibly role-updated) final
agent definition and the agent-ARN token. -/
theorem createBedrockAgent_agent (env : Env) (st : AssemblyState) :
    (createBedrockAgent env st).2 =
      { props := (createBedrockAgent env st).1.agentDefinition, attrAgentArn := agentArnToken } :=
  rfl

/-- `createBedrockAgent` touches neither the bucket, nor the deployment
and temp-dir ledgers, nor the `actionGroups` of the agent definition. -/
theorem createBedrockAgent_preserves (env : Env) (st : AssemblyState) :
    (createBedrockAgent env st).1.assetBucket = st.assetBucket ∧
    (createBedrockAgent env st).1.deployments = st.deployments ∧
    (createBedrockAgent env st).1.tempDirsCreated = st.tempDirsCreated ∧
    (createBedrockAgent env st).1.tempDirsRemoved = st.tempDirsRemoved ∧
    (createBedrockAgent env st).1.agentDefinition.actionGroups = st.agentDefinition.actionGroups := by
  cases h : strTruthy st.agentDefinition.agentResourceRoleArn
  · rw [createBedrockAgent_of_falsy env st h]
    exact ⟨rfl, rfl, rfl, rfl, rfl⟩
  · rw [createBedrockAgent_of_truthy env st h]
    exact ⟨rfl, rfl, rfl, rfl, rfl⟩

/-- Elimination form of a successful constructor run: it factors through
a successful association pass and the agent-creation step. -/
theorem buildConstruct_ok_elim (env : Env) (props : ConstructProps) (res : ConstructResult)
    (h : buildConstruct env props = .ok res) :
    ∃ st2, associateActionGroupInfo env (afterBucketSetup props) props.actionGroups = .ok st2 ∧
      res.state = (createBedrockAgent env st2).1 ∧
      res.agent = (createBedrockAgent env st2).2 ∧
      res.lambdaPermissions =
        addResourcePolicyForActions (createBedrockAgent env st2).2 props.actionGroups := by
  unfold buildConstruct at h
  split at h
  · exact absurd h (by simp)
  · rename_i st2 heq
    simp only [Except.ok.injEq] at h
    exact ⟨st2, heq, by rw [← h], by rw [← h], by rw [← h]⟩

/-- In any successful constructor run, a bucket exists in the final state
exactly when `checkActionsRequireArtifacts` held of the input. -/
theorem buildConstruct_assetBucket (env : Env) (props : ConstructProps) (res : ConstructResult)
    (h : buildConstruct env props = .ok res) :
    res.state.assetBucket.isSome = checkActionsRequireArtifacts props.actionGroups := by
  obtain ⟨st2, hassoc, hstate, _, _⟩ := buildConstruct_ok_elim env props res h
  have h1 := associateActionGroupInfo_ok_preserves env (afterBucketSetup props)
    props.actionGroups st2 hassoc
  have h2 := createBedrockAgent_preserves env st2
  rw [hstate, h2.1, h1.1, (afterBucketSetup_fields props).2.2.2.2.2.2]

/-- Elimination form of a successful association pass over a present
list: it factors through the fragment-mapping pass, and the resulting
definition appends the fragments to the pre-existing action groups. -/
theorem associateActionGroupInfo_some_elim (env : Env) (st : AssemblyState)
    (ags : List AgentActionGroup) (st' : AssemblyState)
    (h : associateActionGroupInfo env st (some ags) = .ok st') :
    ∃ frags stm, mapActionGroupProps env st ags = .ok (frags, stm) ∧
      st' = { stm with
              agentDefinition :=
                { stm.agentDefinition with
                  actionGroups := some (stm.agentDefinition.actionGroups.getD [] ++ frags) } } := by
  cases hmap : mapActionGroupProps env st ags with
  | error e =>
    simp only [associateActionGroupInfo, hmap] at h
    exact absurd h (by simp)
  | ok p =>
    obtain ⟨frags, stm⟩ := p
    simp only [associateActionGroupInfo, hmap, Except.ok.injEq] at h
    exact ⟨frags, stm, rfl, h.symm⟩

/-- The fragment returned by a successful `getApiSchema` call satisfies
the priority characterization `schemaMatches`. -/
theorem getApiSchema_schemaMatches (env : Env) (st : AssemblyState) (sd : SchemaDefinition)
    (name : String) (r : ApiSchemaResult) (st' : AssemblyState)
    (h : getApiSchema env st sd name = .ok (r, st')) :
    schemaMatches sd name r := by
  unfold getApiSchema at h
  unfold schemaMatches
  by_cases h1 : strTruthy sd.inlineAPISchema
  · simp only [h1, if_true, Except.ok.injEq, Prod.mk.injEq] at h ⊢
    exact h.1.symm
  · by_cases h2 : sd.apiSchemaFile.isSome
    · cases hsf : sd.apiSchemaFile with
      | none => rw [hsf] at h2; simp at h2
      | some bytes =>
        rw [hsf] at h
        simp only [h1, Bool.false_eq_true, if_false, Option.isSome_some, if_true,
          uploadSchemaToS3, deployAssetsToBucket, Except.ok.injEq, Prod.mk.injEq] at h
        simp only [h1, h2, Bool.false_eq_true, if_false, if_true]
        exact h.1.symm
    · cases hfs : sd.functionSchema with
      | none => simp [h1, h2, hfs] at h
      | some fs =>
        rw [hfs] at h
        simp only [h1, h2, Bool.false_eq_true, if_false, Except.ok.injEq,
          Prod.mk.injEq] at h
        simp only [h1, h2, Bool.false_eq_true, if_false]
        exact ⟨fs, rfl, h.1.symm⟩

/-- The mapping pass relates inputs to fragments pointwise, in order. -/
theorem mapActionGroupProps_forall2 (env : Env) :
    ∀ (ags : List AgentActionGroup) (st : AssemblyState)
      (frags : List AgentActionGroupProperty) (st' : AssemblyState),
      mapActionGroupProps env st ags = .ok (frags, st') →
      List.Forall₂ fragMatches ags frags
  | [], st, frags, st', h => by
    simp only [mapActionGroupProps, Except.ok.injEq, Prod.mk.injEq] at h
    rw [← h.1]
    exact .nil
  | action :: rest, st, frags, st', h => by
    unfold mapActionGroupProps at h
    split at h
    · exact absurd h (by simp)
    · rename_i schemaProps st1 heq1
      split at h
      · exact absurd h (by simp)
      · rename_i frags2 st2 heq2
        simp only [Except.ok.injEq, Prod.mk.injEq] at h
        rw [← h.1]
        exact .cons
          ⟨rfl, rfl, rfl, rfl, getApiSchema_schemaMatches env st action.schemaDefinition
            action.actionGroupName schemaProps st1 heq1⟩
          (mapActionGroupProps_forall2 env rest st1 frags2 st2 heq2)

/-- One invocation grant is issued per action group with a backing
function. -/
theorem addResourcePolicyForActions_length (agent : CfnAgent) (ags : List AgentActionGroup) :
    (addResourcePolicyForActions agent (some ags)).length =
      (ags.filter fun a => a.lambdaFunc.isSome).length := by
  simp only [addResourcePolicyForActions]
  induction ags with
  | nil => rfl
  | cons a rest ih =>
    rw [List.filterMap_cons, List.filter_cons]
    cases hl : a.lambdaFunc with
    | none => simpa [hl] using ih
    | some f => simpa [hl] using ih

/-- Every issued invocation grant names the Bedrock service principal and
the agent's ARN as source. -/
theorem addResourcePolicyForActions_mem (agent : CfnAgent) (ags : List AgentActionGroup)
    (p : LambdaPermission) (hp : p ∈ addResourcePolicyForActions agent (some ags)) :
    p.action = "lambda:InvokeFunction" ∧
    p.principal = "bedrock.amazonaws.com" ∧
    p.sourceArn = agent.attrAgentArn := by
  simp only [addResourcePolicyForActions, List.mem_filterMap] at hp
  obtain ⟨a, -, ha⟩ := hp
  cases hl : a.lambdaFunc with
  | none => rw [hl] at ha; exact absurd ha (by simp)
  | some f =>
    rw [hl] at ha
    have ha2 : mkInvokePermission agent f = p := by simpa using ha
    rw [← ha2]
    exact ⟨rfl, rfl, rfl⟩

/-! ## Claims -/

/-- C2: the private artifact store is created if and only if at least one
action group in the batch carries a file-reference schema; in particular
an absent batch, an empty batch, or a batch of only inline and
function-schema groups creates no store. -/
theorem claim_C2_store_iff (env : Env) (props : ConstructProps) (res : ConstructResult)
    (h : buildConstruct env props = .ok res) :
    res.state.assetBucket.isSome = true ↔
      ∃ ags, props.actionGroups = some ags ∧
        ∃ a, a ∈ ags ∧ a.schemaDefinition.apiSchemaFile.isSome = true := by
  rw [buildConstruct_assetBucket env props res h]
  cases hag : props.actionGroups with
  | none => simp [checkActionsRequireArtifacts]
  | some ags =>
    simp only [checkActionsRequireArtifacts, List.any_eq_true]
    constructor
    · rintro ⟨a, ha, hfile⟩
      exact ⟨ags, rfl, a, ha, hfile⟩
    · rintro ⟨ags2, hags2, a, ha, hfile⟩
      injection hags2 with hh
      subst hh
      exact ⟨a, ha, hfile⟩

/-- Witness for C2 at a concrete run with one file-schema action group. -/
theorem claim_C2_witness :
    resFile.state.assetBucket.isSome = true ↔
      ∃ ags, propsFile.actionGroups = some ags ∧
        ∃ a, a ∈ ags ∧ a.schemaDefinition.apiSchemaFile.isSome = true :=
  claim_C2_store_iff envW propsFile resFile rfl

/-- C3: with zero populated schema variants, resolution fails with the
exact configuration-error message and yields no fragment; with at least
one populated variant it succeeds, returning one of the three
representations (the result type has exactly those three forms). -/
theorem claim_C3_schema_resolution (env : Env) (st : AssemblyState) (sd : SchemaDefinition)
    (name : String) :
    (populatedVariantCount sd = 0 →
      getApiSchema env st sd name =
        .error "OpenAPI schema or functionDefinition schema required for creating action group") ∧
    (0 < populatedVariantCount sd →
      ∃ r st', getApiSchema env st sd name = .ok (r, st')) := by
  unfold populatedVariantCount
  by_cases h1 : strTruthy sd.inlineAPISchema
  · constructor
    · intro h0
      simp [h1] at h0
    · intro _
      exact ⟨.apiSchemaPayload (sd.inlineAPISchema.getD ""), st, by simp [getApiSchema, h1]⟩
  · by_cases h2 : sd.apiSchemaFile.isSome
    · constructor
      · intro h0
        simp [h1, h2] at h0
      · intro _
        exact ⟨.apiSchemaS3 (uploadSchemaToS3 env st sd.apiSchemaFile name).1,
          (uploadSchemaToS3 env st sd.apiSchemaFile name).2, by simp [getApiSchema, h1, h2]⟩
    · cases hfs : sd.functionSchema with
      | none =>
        constructor
        · intro _
          simp [getApiSchema, h1, h2, hfs]
        · intro h0
          simp [h1, h2, hfs] at h0
      | some fs =>
        constructor
        · intro h0
          simp [h1, h2, hfs] at h0
        · intro _
          exact ⟨.functionSchemaResult fs, st, by simp [getApiSchema, h1, h2, hfs]⟩

/-- Witness for C3: the empty schema definition errors, a populated one
succeeds. -/
theorem claim_C3_witness :
    (getApiSchema envW (initialAssemblyState propsNoActions) sdEmpty "A" =
      .error "OpenAPI schema or functionDefinition schema required for creating action group") ∧
    (∃ r st', getApiSchema envW (initialAssemblyState propsNoActions) sdFn "A" = .ok (r, st')) :=
  ⟨(claim_C3_schema_resolution envW (initialAssemblyState propsNoActions) sdEmpty "A").1
      (by decide),
   (claim_C3_schema_resolution envW (initialAssemblyState propsNoActions) sdFn "A").2
      (by decide)⟩

/-- C4: the execution role is synthesized exactly once when the agent
definition carries no (truthy) role ARN and zero times when it carries
one; the synthesized role has the single model-invocation statement whose
resource ARN embeds exactly the selected foundation model, is assumable
only by the Bedrock service, and carries the current-account trust
condition. -/
theorem claim_C4_role_synthesis (env : Env) (props : ConstructProps) (res : ConstructResult)
    (reg acct fm : String)
    (h : buildConstruct env props = .ok res)
    (hreg : env.cdkDefaultRegion = some reg)
    (hacct : env.cdkDefaultAccount = some acct)
    (hfm : props.agentDefinition.foundationModel = some fm) :
    (res.state.roleSynthCount =
      if strTruthy props.agentDefinition.agentResourceRoleArn then 0 else 1) ∧
    (strTruthy props.agentDefinition.agentResourceRoleArn = true →
      res.state.agentServiceRole = none) ∧
    (strTruthy props.agentDefinition.agentResourceRoleArn = false →
      res.state.agentServiceRole = some
        { assumedByService := "bedrock.amazonaws.com"
          assumeConditions := [{ key := "aws:SourceAccount", value := some acct }]
          description := "Service role for Amazon Bedrock"
          policyStatements := [
            { sid := "AllowModelInvocationForOrchestration"
              effectAllow := true
              actions := ["bedrock:InvokeModel"]
              resources := ["arn:aws:bedrock:" ++ reg ++ "::foundation-model/" ++ fm]
              conditions := [] }]
          roleArn := serviceRoleArnToken }) := by
  obtain ⟨st2, hassoc, hstate, _, _⟩ := buildConstruct_ok_elim env props res h
  have hp := associateActionGroupInfo_ok_preserves env (afterBucketSetup props)
    props.actionGroups st2 hassoc
  have habs := afterBucketSetup_fields props
  have hrole2 : st2.agentServiceRole = none := hp.2.2.2.2.2 habs.2.1
  have harn2 : st2.agentDefinition.agentResourceRoleArn =
      props.agentDefinition.agentResourceRoleArn := by
    rw [hp.2.2.2.2.1, habs.1]
  have hfm2 : st2.agentDefinition.foundationModel = some fm := by
    rw [hp.2.2.2.1, habs.1, hfm]
  have hcnt2 : st2.roleSynthCount = 0 := by
    rw [hp.2.1, habs.2.2.2.2.2.1]
  cases hb : strTruthy props.agentDefinition.agentResourceRoleArn with
  | false =>
    have hb2 : strTruthy st2.agentDefinition.agentResourceRoleArn = false := by
      rw [harn2, hb]
    rw [hstate, createBedrockAgent_of_falsy env st2 hb2]
    refine ⟨by simp [hcnt2], fun ht => absurd ht (by simp), fun _ => ?_⟩
    simp only
    rw [setupIAMRole, hreg, hfm2, hacct]
    simp [jsStr]
  | true =>
    have hb2 : strTruthy st2.agentDefinition.agentResourceRoleArn = true := by
      rw [harn2, hb]
    rw [hstate, createBedrockAgent_of_truthy env st2 hb2]
    exact ⟨by simp [hcnt2], fun _ => hrole2, fun hf => absurd hf (by simp)⟩

/-- Witness for C4 at a concrete run without a caller-supplied role. -/
theorem claim_C4_witness :
    (resFile.state.roleSynthCount =
      if strTruthy propsFile.agentDefinition.agentResourceRoleArn then 0 else 1) ∧
    (strTruthy propsFile.agentDefinition.agentResourceRoleArn = true →
      resFile.state.agentServiceRole = none) ∧
    (strTruthy propsFile.agentDefinition.agentResourceRoleArn = false →
      resFile.state.agentServiceRole = some
        { assumedByService := "bedrock.amazonaws.com"
          assumeConditions := [{ key := "aws:SourceAccount", value := some "123456789012" }]
          description := "Service role for Amazon Bedrock"
          policyStatements := [
            { sid := "AllowModelInvocationForOrchestration"
              effectAllow := true
              actions := ["bedrock:InvokeModel"]
              resources := ["arn:aws:bedrock:" ++ "us-east-1" ++ "::foundation-model/" ++
                "anthropic.claude-v2"]
              conditions := [] }]
          roleArn := serviceRoleArnToken }) :=
  claim_C4_role_synthesis envW propsFile resFile "us-east-1" "123456789012"
    "anthropic.claude-v2" rfl rfl rfl rfl

/-- C5: one invocation grant per action group with a backing function,
each naming the Bedrock service principal and the agent's ARN as source;
groups without a backing function are skipped without error. -/
theorem claim_C5_invocation_grants (env : Env) (props : ConstructProps) (res : ConstructResult)
    (h : buildConstruct env props = .ok res) :
    res.lambdaPermissions.length =
      (match props.actionGroups with
       | none => 0
       | some ags => (ags.filter fun a => a.lambdaFunc.isSome).length) ∧
    ∀ p ∈ res.lambdaPermissions,
      p.action = "lambda:InvokeFunction" ∧
      p.principal = "bedrock.amazonaws.com" ∧
      p.sourceArn = res.agent.attrAgentArn := by
  obtain ⟨st2, _, _, hagent, hperm⟩ := buildConstruct_ok_elim env props res h
  rw [hperm, hagent]
  cases hag : props.actionGroups with
  | none =>
    refine ⟨rfl, fun p hp => ?_⟩
    simp [addResourcePolicyForActions] at hp
  | some ags =>
    exact ⟨addResourcePolicyForActions_length (createBedrockAgent env st2).2 ags,
      fun p hp => addResourcePolicyForActions_mem (createBedrockAgent env st2).2 ags p hp⟩

/-- Witness for C5 at a mixed batch: one backed, one unbacked group. -/
theorem claim_C5_witness :
    resMixed.lambdaPermissions.length =
      (match propsMixed.actionGroups with
       | none => 0
       | some ags => (ags.filter fun a => a.lambdaFunc.isSome).length) ∧
    ∀ p ∈ resMixed.lambdaPermissions,
      p.action = "lambda:InvokeFunction" ∧
      p.principal = "bedrock.amazonaws.com" ∧
      p.sourceArn = resMixed.agent.attrAgentArn :=
  claim_C5_invocation_grants envW propsMixed resMixed rfl

/-- C6: with a supplied list, assembly yields the pre-existing action
groups followed by one fragment per specification in order, each fragment
carrying the specification's name, executor, description, state, and
resolved schema (the pure embedding cannot mutate the inputs). -/
theorem claim_C6_fragment_assembly (env : Env) (props : ConstructProps) (res : ConstructResult)
    (ags : List AgentActionGroup)
    (h : buildConstruct env props = .ok res)
    (hags : props.actionGroups = some ags) :
    ∃ frags,
      res.state.agentDefinition.actionGroups =
        some (props.agentDefinition.actionGroups.getD [] ++ frags) ∧
      List.Forall₂ fragMatches ags frags := by
  obtain ⟨st2, hassoc, hstate, _, _⟩ := buildConstruct_ok_elim env props res h
  rw [hags] at hassoc
  obtain ⟨frags, stm, hmap, hst2⟩ :=
    associateActionGroupInfo_some_elim env (afterBucketSetup props) ags st2 hassoc
  have hpm := mapActionGroupProps_ok_preserves env ags (afterBucketSetup props) frags stm hmap
  refine ⟨frags, ?_, mapActionGroupProps_forall2 env ags (afterBucketSetup props) frags stm hmap⟩
  rw [hstate, (createBedrockAgent_preserves env st2).2.2.2.2, hst2]
  simp only
  rw [hpm.1, (afterBucketSetup_fields props).1]

/-- Witness for C6 at a concrete single-group batch. -/
theorem claim_C6_witness :
    ∃ frags,
      resFile.state.agentDefinition.actionGroups =
        some (propsFile.agentDefinition.actionGroups.getD [] ++ frags) ∧
      List.Forall₂ fragMatches [agFile] frags :=
  claim_C6_fragment_assembly envW propsFile resFile [agFile] rfl rfl

/-- C10: with no action-group list at all, the constructor is a no-op for
every capability-related effect — no store, no fragments added, no
deployments, no invocation grants — while the agent is still created from
the (possibly role-updated) definition. -/
theorem claim_C10_no_actions_noop (env : Env) (props : ConstructProps)
    (h : props.actionGroups = none) :
    ∃ res, buildConstruct env props = .ok res ∧
      res.state.assetBucket = none ∧
      res.state.agentDefinition.actionGroups = props.agentDefinition.actionGroups ∧
      res.state.deployments = [] ∧
      res.lambdaPermissions = [] ∧
      res.agent.props = res.state.agentDefinition := by
  have hb : afterBucketSetup props = initialAssemblyState props := by
    unfold afterBucketSetup
    simp [checkActionsRequireArtifacts, h]
  have hassoc : associateActionGroupInfo env (afterBucketSetup props) props.actionGroups
      = .ok (initialAssemblyState props) := by
    rw [h, hb]
    rfl
  refine ⟨{ state := (createBedrockAgent env (initialAssemblyState props)).1
            agent := (createBedrockAgent env (initialAssemblyState props)).2
            lambdaPermissions :=
              addResourcePolicyForActions
                (createBedrockAgent env (initialAssemblyState props)).2 props.actionGroups },
    ?_, ?_, ?_, ?_, ?_, ?_⟩
  · simp only [buildConstruct, hassoc]
  · rw [(createBedrockAgent_preserves env (initialAssemblyState props)).1]
    rfl
  · rw [(createBedrockAgent_preserves env (initialAssemblyState props)).2.2.2.2]
    rfl
  · rw [(createBedrockAgent_preserves env (initialAssemblyState props)).2.1]
    rfl
  · rw [h]
    rfl
  · rw [createBedrockAgent_agent]

/-- Witness for C10 at a concrete propless batch. -/
theorem claim_C10_witness :
    ∃ res, buildConstruct envW propsNoActions = .ok res ∧
      res.state.assetBucket = none ∧
      res.state.agentDefinition.actionGroups = propsNoActions.agentDefinition.actionGroups ∧
      res.state.deployments = [] ∧
      res.lambdaPermissions = [] ∧
      res.agent.props = res.state.agentDefinition :=
  claim_C10_no_actions_noop envW propsNoActions rfl

/-- C1 (code divergence): on an assembly with one file-based schema and a
synthesized role, the run succeeds, publishes one artifact, synthesizes
the role — yet the role receives zero `s3:GetObject` artifact-read
statements, because `addSchemaAccessForAgents` runs (during action-group
association) before `createBedrockAgent` sets `agentServiceRole`, so its
guard always takes the early return. The claim expects one grant per
file-based schema. -/
theorem claim_C1_schema_grants_never_attached :
    buildConstruct envW propsFile = .ok resFile ∧
    resFile.state.roleSynthCount = 1 ∧
    resFile.state.deployments.length = 1 ∧
    (resFile.state.agentServiceRole.map fun role =>
      (role.policyStatements.filter
        fun s => s.sid == "AllowAccessToActionGroupAPISchemas").length) = some 0 :=
  ⟨rfl, rfl, rfl, rfl⟩

/-- C7 (code divergence): with both `CDK_DEFAULT_REGION` and
`CDK_DEFAULT_ACCOUNT` missing, the assembly does not fail — the
TypeScript non-null assertions are erased at runtime — and instead emits
a synthesized role whose model ARN embeds the literal text "undefined"
and whose trust condition value is absent. The claim expects a fatal
propagated error. -/
theorem claim_C7_missing_env_no_failure :
    buildConstruct envNone propsFile = .ok resNoEnv ∧
    resNoEnv.state.roleSynthCount = 1 ∧
    (resNoEnv.state.agentServiceRole.map fun role =>
      role.policyStatements.map fun s => s.resources) =
      some [["arn:aws:bedrock:undefined::foundation-model/anthropic.claude-v2"]] ∧
    (resNoEnv.state.agentServiceRole.map fun role => role.assumeConditions) =
      some [{ key := "aws:SourceAccount", value := none }] :=
  ⟨rfl, rfl, rfl, rfl⟩

/-- C8 (code divergence): a publish creates one temporary staging
directory and removes none — the `finally` block's cleanup is a
commented-out TODO — so temporary local state persists past the call. The
claim expects cleanup on every path. -/
theorem claim_C8_temp_dir_leak :
    buildConstruct envW propsFile = .ok resFile ∧
    resFile.state.tempDirsCreated = 1 ∧
    resFile.state.tempDirsRemoved = 0 :=
  ⟨rfl, rfl, rfl⟩

/-- C9 (counterexample): a specification with both the inline and the
file variant populated resolves to the inline payload and publishes no
artifact, yet the artifact store is still created, because store
provisioning keys on file-variant presence alone — refuting "no store is
needed for that specification". -/
theorem claim_C9_counterexample :
    strTruthy sdBoth.inlineAPISchema = true ∧
    buildConstruct envW propsBoth = .ok resBoth ∧
    resBoth.state.assetBucket.isSome = true ∧
    resBoth.state.deployments = [] :=
  ⟨rfl, rfl, rfl, rfl⟩

/-- C9 (amended): with more than one variant populated, resolution raises
no error and follows the fixed priority — inline wins over file (and the
state is left untouched: nothing is published), and without inline the
file variant is necessarily present and wins over the function schema.
Store provisioning, however, keys on file-variant presence alone (see the
counterexample). -/
theorem claim_C9_priority (env : Env) (st : AssemblyState) (sd : SchemaDefinition)
    (name : String) (hmulti : 2 ≤ populatedVariantCount sd) :
    ∃ r st', getApiSchema env st sd name = .ok (r, st') ∧
      (strTruthy sd.inlineAPISchema = true →
        r = .apiSchemaPayload (sd.inlineAPISchema.getD "") ∧ st' = st) ∧
      (strTruthy sd.inlineAPISchema = false →
        sd.apiSchemaFile.isSome = true ∧
        r = .apiSchemaS3 { s3BucketName := some assetBucketNameToken
                           s3ObjectKey := some (objectKeysHeadToken name) }) := by
  by_cases h1 : strTruthy sd.inlineAPISchema
  · refine ⟨.apiSchemaPayload (sd.inlineAPISchema.getD ""), st, by simp [getApiSchema, h1],
      fun _ => ⟨rfl, rfl⟩, fun hf => ?_⟩
    rw [h1] at hf
    exact absurd hf (by simp)
  · have h2 : sd.apiSchemaFile.isSome = true := by
      unfold populatedVariantCount at hmulti
      by_cases h2 : sd.apiSchemaFile.isSome
      · exact h2
      · exfalso
        cases h3 : sd.functionSchema.isSome <;> simp [h1, h2, h3] at hmulti
    refine ⟨.apiSchemaS3 { s3BucketName := some assetBucketNameToken
                           s3ObjectKey := some (objectKeysHeadToken name) },
      (uploadSchemaToS3 env st sd.apiSchemaFile name).2, ?_, fun ht => ?_, fun _ => ⟨h2, rfl⟩⟩
    · cases hsf : sd.apiSchemaFile with
      | none => rw [hsf] at h2; simp at h2
      | some bytes =>
        simp [getApiSchema, h1, h2, hsf, uploadSchemaToS3, deployAssetsToBucket]
    · exact absurd ht (by simp [h1])

/-- Witness for the amended C9 at the inline-plus-file specification. -/
theorem claim_C9_witness :
    ∃ r st', getApiSchema envW (initialAssemblyState propsNoActions) sdBoth "BothAction" =
        .ok (r, st') ∧
      (strTruthy sdBoth.inlineAPISchema = true →
        r = .apiSchemaPayload (sdBoth.inlineAPISchema.getD "") ∧
          st' = initialAssemblyState propsNoActions) ∧
      (strTruthy sdBoth.inlineAPISchema = false →
        sdBoth.apiSchemaFile.isSome = true ∧
        r = .apiSchemaS3 { s3BucketName := some assetBucketNameToken
                           s3ObjectKey := some (objectKeysHeadToken "BothAction") }) :=
  claim_C9_priority envW (initialAssemblyState propsNoActions) sdBoth "BothAction" (by decide)

end BedrockBlueprints
